import Mathlib

/-!
Shallow embedding of the authenticated real-time messaging subsystem of the
`template_fastapi` repository: token issuance/decoding (`src/auth.py`),
permission checks, the websocket connection manager (`src/managers.py`),
message schemas and validation (`src/schemas.py`), message persistence
(`src/crud.py`), and the websocket session loop (`src/router_ws.py`).

Python machine-level conventions used throughout the embedding:
- exceptions are modelled by `Except PyError`;
- Python truthiness of optional strings (`if x:` where `x : Optional[str]`)
  is `truthyStr`: `None` and the empty string are falsy;
- time is an integer epoch-seconds clock passed explicitly (`now`);
- the JWT library (external collaborator) is modelled by `SignedToken` /
  `jwtEncode` / `jwtDecode`: decoding succeeds exactly when key and
  algorithm match and the `exp` claim is strictly in the future, matching
  PyJWT's signature check and `exp <= now` expiry rule.
-/

/-- Error side of the embedding: `http s d` is `HTTPException(status_code=s,
detail=d)`; `valueError` is Python `ValueError`; `keyError` is Python
`KeyError` (as raised by `UserRole[name]` on a bad name); `pyjwt` is
`jwt.PyJWTError`; `jsonError` is a `json.loads` / pydantic validation
failure on an inbound frame. -/
inductive PyError where
  | http (status : Nat) (detail : String)
  | valueError (msg : String)
  | keyError (key : String)
  | pyjwt (msg : String)
  | jsonError
deriving DecidableEq, Repr

/-- The `UserRole` enum of `src/enums.py`. -/
inductive UserRole where
  | user
  | administrator
  | noone
deriving DecidableEq, Repr

/-- The `.value` of each `UserRole` member (`src/enums.py` lines 4-7). -/
def UserRole.value : UserRole → String
  | UserRole.user => "user"
  | UserRole.administrator => "admin"
  | UserRole.noone => ""

/-- Python `UserRole[name]` lookup by member NAME (not value); raises
`KeyError` for any other string, modelled by `none`. -/
def UserRole.fromName : String → Option UserRole
  | "user" => some UserRole.user
  | "administrator" => some UserRole.administrator
  | "noone" => some UserRole.noone
  | _ => none

/-- Python truthiness of an `Optional[str]`: `None` and `""` are falsy. -/
def truthyStr : Option String → Bool
  | none => false
  | some s => !(s = "")

/-- Python truthiness of an `Optional[timedelta]` (seconds): `None` and a
zero delta are falsy. -/
def truthyDelta : Option Int → Bool
  | none => false
  | some d => !(d = 0)

/-- The claims dictionary a token of this application carries
(`{exp, id, role, is_superuser, email}`, section of `create_token`).
`none` models an absent key (and, for claims the code only ever reads
back, a key present with value `None`). -/
structure JwtPayload where
  exp : Int
  id : Option String
  role : Option String
  is_superuser : Option Bool
  email : Option String
deriving DecidableEq, Repr

/-- Model of an encoded JWT string: the payload together with the key and
algorithm it was signed with. -/
structure SignedToken where
  payload : JwtPayload
  key : String
  alg : String
deriving DecidableEq, Repr

/-- The process-wide `settings.SECRET_KEY` (opaque value). -/
def SECRET_KEY : String := "SECRET_KEY"

/-- The process-wide `settings.ALGORITHMS` (opaque value). -/
def ALGORITHMS : String := "HS256"

/-- Model of `jwt.encode(data, key, algorithm)`. -/
def jwtEncode (data : JwtPayload) (key : String) (alg : String) : SignedToken :=
  SignedToken.mk data key alg

/-- Model of `jwt.decode(token, key=key, algorithms=[alg])` at clock `now`:
fails with a `PyJWTError` when the signature does not verify (wrong key or
algorithm) or when the token is expired (PyJWT raises
`ExpiredSignatureError` when `exp <= now`). -/
def jwtDecode (tok : SignedToken) (key : String) (alg : String) (now : Int) :
    Except PyError JwtPayload :=
  if tok.key = key ∧ tok.alg = alg then
    if tok.payload.exp ≤ now then
      Except.error (PyError.pyjwt "Signature has expired")
    else
      Except.ok tok.payload
  else
    Except.error (PyError.pyjwt "Signature verification failed")

/-- The `role` attribute of the `Token` dataclass is
`Union[UserRole, list[UserRole]]` (`src/auth.py` line 26). -/
inductive RoleSpec where
  | one (r : UserRole)
  | many (rs : List UserRole)
deriving DecidableEq, Repr

/-- The `Token` dataclass of `src/auth.py` (lines 23-28). -/
structure Token where
  token : SignedToken
  role : RoleSpec
  key : String
  alg : String
deriving DecidableEq, Repr

/-- Method `Token._decode` (`src/auth.py` lines 30-40): `jwt.decode` with the
instance key and algorithm; every `PyJWTError` is re-raised as
`HTTPException(401, exc.args)`. -/
def Token._decode (t : Token) (now : Int) : Except PyError JwtPayload :=
  match jwtDecode t.token t.key t.alg now with
  | Except.ok p => Except.ok p
  | Except.error (PyError.pyjwt m) => Except.error (PyError.http 401 m)
  | Except.error e => Except.error e

/-- Python membership test `claim in [i.value for i in roles]` where `claim`
is `Optional[str]`: `None` is never a member of a list of strings. -/
def optMem (claim : Option String) (vals : List String) : Bool :=
  match claim with
  | none => false
  | some s => vals.contains s

/-- Method `Token._has_access` (`src/auth.py` lines 42-48). -/
def Token._has_access (t : Token) (now : Int) : Except PyError Bool := do
  let p ← t._decode now
  match t.role with
  | RoleSpec.many rs => pure (optMem p.role (rs.map UserRole.value))
  | RoleSpec.one r =>
      match p.role with
      | none => pure false
      | some s => pure (s = r.value)

/-- Method `Token._not_access` (`src/auth.py` lines 50-56). -/
def Token._not_access (t : Token) (now : Int) : Except PyError Bool := do
  let p ← t._decode now
  match t.role with
  | RoleSpec.many rs => pure (!(optMem p.role (rs.map UserRole.value)))
  | RoleSpec.one r =>
      match p.role with
      | none => pure true
      | some s => pure (!(s = r.value))

/-- Method `Token.check_permission` (`src/auth.py` lines 58-71): selects
`_not_access` when `exclude` else `_has_access`, and raises
`HTTPException(403, "Permission denied")` when the selected predicate is
false. -/
def Token.check_permission (t : Token) (exclude : Bool) (now : Int) :
    Except PyError Unit := do
  let access ← if exclude then t._not_access now else t._has_access now
  if access then pure () else Except.error (PyError.http 403 "Permission denied")

/-- Python `int(s)` on a string, modelled by `String.toInt?`; a non-numeric
string raises `ValueError`. -/
def pyInt (s : String) : Except PyError Int :=
  match s.toInt? with
  | some n => Except.ok n
  | none => Except.error (PyError.valueError "invalid literal for int")

/-- Method `Token.user_id` (`src/auth.py` lines 73-80): truthiness test on
the `id` claim, so an absent key and an empty string both raise
`HTTPException(400, "Token must have key id")`. -/
def Token.user_id (t : Token) (now : Int) : Except PyError Int := do
  let p ← t._decode now
  match p.id with
  | some s =>
      if s = "" then Except.error (PyError.http 400 "Token must have key id")
      else pyInt s
  | none => Except.error (PyError.http 400 "Token must have key id")

/-- Method `Token.user_role` (`src/auth.py` lines 82-89). -/
def Token.user_role (t : Token) (now : Int) : Except PyError String := do
  let p ← t._decode now
  match p.role with
  | some s =>
      if s = "" then Except.error (PyError.http 400 "Token must have key role")
      else Except.ok s
  | none => Except.error (PyError.http 400 "Token must have key role")

/-- Method `Token.user_email` (`src/auth.py` lines 91-98). -/
def Token.user_email (t : Token) (now : Int) : Except PyError String := do
  let p ← t._decode now
  match p.email with
  | some s =>
      if s = "" then Except.error (PyError.http 400 "Token must have key email")
      else Except.ok s
  | none => Except.error (PyError.http 400 "Token must have key email")

/-- The `CreateJwt` schema of `src/schemas.py` (lines 47-51). -/
structure CreateJwt where
  id : String
  role : String
  email : String
  is_superuser : Bool
deriving DecidableEq, Repr

/-- Module constant `access_token_expires = timedelta(minutes=30)`, in
seconds. -/
def access_token_expires : Int := 30 * 60

/-- Module constant `refresh_token_expires = timedelta(minutes=180)`, in
seconds. -/
def refresh_token_expires : Int := 180 * 60

/-- Function `create_token` of `src/auth.py` (lines 132-160): computes
`exp = now + expires_delta` (default 15 minutes when the delta is falsy),
then fills the claims either from a `CreateJwt` schema or from the explicit
`user_id`/`user_role`/`user_email`/`is_superuser` arguments (the `role`
claim is the enum member's `.value`); raises `ValueError` when neither a
schema nor truthy `user_id` and `user_role` are supplied. -/
def create_token (user : Option CreateJwt) (expires_delta : Option Int)
    (user_id : Option String) (user_role : Option UserRole)
    (user_email : Option String) (is_superuser : Bool) (now : Int) :
    Except PyError SignedToken :=
  let expire : Int :=
    if truthyDelta expires_delta then now + expires_delta.getD 0
    else now + 15 * 60
  match user with
  | some u =>
      Except.ok (jwtEncode
        (JwtPayload.mk expire (some u.id) (some u.role) (some u.is_superuser)
          (some u.email)) SECRET_KEY ALGORITHMS)
  | none =>
      if truthyStr user_id && user_role.isSome then
        Except.ok (jwtEncode
          (JwtPayload.mk expire user_id
            (some ((user_role.getD UserRole.noone).value)) (some is_superuser)
            user_email) SECRET_KEY ALGORITHMS)
      else
        Except.error
          (PyError.valueError "Unexpected value, use Userschema or explicit values")

/-- Alias for the module-level `create_token`, needed inside the method
`RefreshToken.create_token` (which shadows the module name). -/
def moduleCreateToken : Option CreateJwt → Option Int → Option String →
    Option UserRole → Option String → Bool → Int → Except PyError SignedToken :=
  create_token

/-- Method `RefreshToken.create_token` of `src/auth.py` (lines 197-229):
decodes the held token; when the `id` and `role` claims are truthy and the
`is_superuser` key is present, reissues an access+refresh pair via the
module-level `create_token` using `UserRole[role]` — a lookup by member
NAME, which raises `KeyError` for any string that is not `user`,
`administrator` or `noone`; otherwise raises
`ValueError("Unexpected decryption result")`. -/
def RefreshToken.create_token (t : Token) (now : Int) :
    Except PyError (SignedToken × SignedToken) := do
  let payload ← t._decode now
  if truthyStr payload.id && truthyStr payload.role
      && payload.is_superuser.isSome then
    match UserRole.fromName (payload.role.getD "") with
    | none => Except.error (PyError.keyError (payload.role.getD ""))
    | some r => do
        let is_su := payload.is_superuser.getD false
        let access ← moduleCreateToken none (some access_token_expires)
          payload.id (some r) none is_su now
        let refresh ← moduleCreateToken none (some refresh_token_expires)
          payload.id (some r) none is_su now
        pure (access, refresh)
  else
    Except.error (PyError.valueError "Unexpected decryption result")

/-- The `active_connections` dict of `WsConnectionManager`
(`src/managers.py` line 23): `sender_id → (websocket,)`. Channels
(websockets) are identified by natural numbers. -/
abbrev Registry : Type := List (String × Nat)

/-- Dict lookup `active_connections.get(sender_id)`. -/
def regGet (r : Registry) (sid : String) : Option Nat :=
  match List.find? (fun e => e.1 = sid) r with
  | some e => some e.2
  | none => none

/-- Dict assignment `active_connections[sender_id] = (websocket,)`:
replaces any existing entry for the subject. -/
def regSet (r : Registry) (sid : String) (ws : Nat) : Registry :=
  List.filter (fun e => !(e.1 = sid)) r ++ [(sid, ws)]

/-- Method `WsConnectionManager.connect` (`src/managers.py` lines 25-27):
accepts the handshake (transport effect, not modelled) and stores the
mapping. -/
def WsConnectionManager.connect (r : Registry) (ws : Nat) (sid : String) :
    Registry :=
  regSet r sid ws

/-- Method `WsConnectionManager.disconnect` (`src/managers.py` lines 29-32):
returns unchanged when the subject is absent, otherwise deletes the entry.
The `websocket` argument is accepted but never compared against the stored
channel. -/
def WsConnectionManager.disconnect (r : Registry) (_ws : Nat) (sid : String) :
    Registry :=
  match regGet r sid with
  | none => r
  | some _ => List.filter (fun e => !(e.1 = sid)) r

/-- Method `WsConnectionManager.is_connected` (`src/managers.py` lines
43-44): truthiness of `active_connections.get(user_id, False)` — a stored
one-element tuple is always truthy. -/
def WsConnectionManager.is_connected (r : Registry) (uid : String) : Bool :=
  (regGet r uid).isSome

/-- A row of the `message` table as built by `create_message_model`
(`src/crud.py` lines 158-173). -/
structure MessageRow where
  id : Int
  text : Option String
  photo : Option String
  sender : Int
  receiver : Int
deriving DecidableEq, Repr

/-- Python `x or None` on an `Optional[str]`: an empty string collapses to
`None` (`src/crud.py` lines 162-163). -/
def pyOrNone : Option String → Option String
  | none => none
  | some s => if s = "" then none else some s

/-- Python `a or b` on `Optional[str]` values (`src/managers.py` line 38). -/
def pyOrStr (a : Option String) (b : Option String) : Option String :=
  if truthyStr a then a else b

/-- One persistence call issued by the session loop (used to state that a
frame did or did not reach the storage collaborator). -/
inductive PersistOp where
  | createOp (row : MessageRow)
  | deleteOp (id : Int)
  | updateOp (id : Int) (text : String)
deriving DecidableEq, Repr

/-- Function `create_message_model` (`src/crud.py` lines 158-173): builds a
`Message` row with `text = body.text or None`, `photo = body.photo or
None`, `sender = body.sender_id`, `receiver = body.receiver_id`, adds and
flushes it; the flush assigns the server-side id (modelled as the current
row count). Storage is the opaque append service of the spec's scope. -/
def create_message_model (db : List MessageRow) (text photo : Option String)
    (sender_id receiver_id : Int) : List MessageRow × MessageRow :=
  let row : MessageRow :=
    MessageRow.mk (Int.ofNat db.length) (pyOrNone text) (pyOrNone photo)
      sender_id receiver_id
  (db ++ [row], row)

/-- Function `delete_message_model` (`src/crud.py` lines 196-207): executes
`DELETE FROM message WHERE id = :id`. A bulk delete matching zero rows
raises nothing, so the function never fails — the `except NoResultFound`
branch is unreachable. -/
def delete_message_model (db : List MessageRow) (mid : Int) :
    List MessageRow :=
  List.filter (fun row => !(row.id = mid)) db

/-- Function `update_message_model` (`src/crud.py` lines 210-227): executes
`UPDATE message SET text = :text WHERE id = :id` and commits, then calls
`scalar_one()` on the non-returning cursor, which always raises a
`SQLAlchemyError` that `handle_error` converts to `HTTPException(400, ...)`
— so the mutation is committed but the call always raises. -/
def update_message_model (db : List MessageRow) (mid : Int) (text : String) :
    List MessageRow × Except PyError MessageRow :=
  (db.map (fun row =>
      if row.id = mid then
        MessageRow.mk row.id (some text) row.photo row.sender row.receiver
      else row),
   Except.error (PyError.http 400 "This result object does not return rows"))

/-- The parsed `WSMessageRequest.message` union
(`UpdateMessage | CreateMessage | DeleteMessage`, `src/schemas.py`
lines 138-139). -/
inductive Envelope where
  | create (text photo : Option String) (sender_id receiver_id : Int)
  | update (id : Int) (text : String)
  | delete (id : Int)
deriving DecidableEq, Repr

/-- One inbound event of the websocket receive loop: a frame that fails
`json.loads`/shape validation (`junk`), a well-shaped create/update/delete
frame, or a transport disconnect (the `WebSocketDisconnect` exception
raised by `receive_text`). -/
inductive Wire where
  | junk
  | createMsg (text photo : Option String) (sender_id receiver_id : Int)
  | updateMsg (id : Int) (text : String)
  | deleteMsg (id : Int)
  | closeFrame
deriving DecidableEq, Repr

/-- Validation performed by `WSMessageRequest.model_validate`
(`src/schemas.py`): create frames run the `BaseMessage` model validator
`check_passwords_match` (lines 110-119), which raises
`HTTPException(400, "required any of photo or text")` exactly when BOTH
`text` and `photo` are non-null; an unparseable frame raises a
`json`/validation error. No other shape is rejected. -/
def parseFrame : Wire → Except PyError Envelope
  | Wire.junk => Except.error PyError.jsonError
  | Wire.createMsg t p s r =>
      if t.isSome && p.isSome then
        Except.error (PyError.http 400 "required any of photo or text")
      else
        Except.ok (Envelope.create t p s r)
  | Wire.updateMsg i tx => Except.ok (Envelope.update i tx)
  | Wire.deleteMsg i => Except.ok (Envelope.delete i)
  | Wire.closeFrame => Except.error PyError.jsonError

/-- The statement `message.message.receiver_id = receiver`
(`src/router_ws.py` line 90), executed on every parsed envelope before the
`isinstance` dispatch. `receiver_id` is a declared field only on
`CreateMessage`; pydantic v2 `__setattr__` raises
`ValueError(... object has no field receiver_id)` for `UpdateMessage` and
`DeleteMessage`. -/
def setReceiver (receiver : Int) : Envelope → Except PyError Envelope
  | Envelope.create t p s _ => Except.ok (Envelope.create t p s receiver)
  | Envelope.update _ _ =>
      Except.error
        (PyError.valueError "UpdateMessage object has no field receiver_id")
  | Envelope.delete _ =>
      Except.error
        (PyError.valueError "DeleteMessage object has no field receiver_id")

/-- State threaded through one websocket session: the connection registry,
the message storage, the persistence calls issued so far, and the payloads
echoed to the sender's channel by `send_message`. -/
structure SessionState where
  registry : Registry
  storage : List MessageRow
  trace : List PersistOp
  sent : List (Option String)
deriving DecidableEq, Repr

/-- How one session ended: `closed` = `WebSocketDisconnect` was caught and
`manager.disconnect` ran; `crashed e` = an exception other than
`WebSocketDisconnect` escaped the loop (no cleanup ran); `exhausted` =
the supplied finite event prefix ran out with the loop still live. -/
inductive Outcome where
  | exhausted
  | closed
  | crashed (e : PyError)
deriving DecidableEq, Repr

/-- The `while True` receive loop of `websocket_endpoint`
(`src/router_ws.py` lines 85-100), driven by a finite prefix of inbound
events: parse the frame, overwrite `receiver_id` with the path parameter,
dispatch by `isinstance`; only `WebSocketDisconnect` is caught (running
`manager.disconnect`), every other exception propagates and ends the
session with no cleanup. -/
def runLoop (ws : Nat) (uid : String) (receiver : Int) :
    SessionState → List Wire → SessionState × Outcome
  | st, [] => (st, Outcome.exhausted)
  | st, Wire.closeFrame :: _ =>
      (SessionState.mk (WsConnectionManager.disconnect st.registry ws uid)
        st.storage st.trace st.sent, Outcome.closed)
  | st, f :: rest =>
      match parseFrame f with
      | Except.error e => (st, Outcome.crashed e)
      | Except.ok env =>
        match setReceiver receiver env with
        | Except.error e => (st, Outcome.crashed e)
        | Except.ok (Envelope.create t p s r) =>
            let res := create_message_model st.storage t p s r
            let echo := pyOrStr t p
            runLoop ws uid receiver
              (SessionState.mk st.registry res.1
                (st.trace ++ [PersistOp.createOp res.2])
                (st.sent ++ [echo])) rest
        | Except.ok (Envelope.delete i) =>
            runLoop ws uid receiver
              (SessionState.mk st.registry (delete_message_model st.storage i)
                (st.trace ++ [PersistOp.deleteOp i]) st.sent) rest
        | Except.ok (Envelope.update i tx) =>
            let res := update_message_model st.storage i tx
            match res.2 with
            | Except.error e =>
                (SessionState.mk st.registry res.1
                  (st.trace ++ [PersistOp.updateOp i tx]) st.sent,
                 Outcome.crashed e)
            | Except.ok _ =>
                runLoop ws uid receiver
                  (SessionState.mk st.registry res.1
                    (st.trace ++ [PersistOp.updateOp i tx])
                    (st.sent ++ [some tx])) rest

/-- The endpoint `websocket_endpoint` (`src/router_ws.py` lines 74-100)
after authentication: registers the connection iff the subject is not
already registered, then runs the receive loop. -/
def websocket_endpoint (ws : Nat) (uid : String) (receiver : Int)
    (reg : Registry) (storage : List MessageRow) (frames : List Wire) :
    SessionState × Outcome :=
  let reg1 :=
    if WsConnectionManager.is_connected reg uid then reg
    else WsConnectionManager.connect reg ws uid
  runLoop ws uid receiver (SessionState.mk reg1 storage [] []) frames

/-- Result classifier: the decode failed with `HTTPException(401, ...)`
(the unauthorized mapping of `InvalidToken`). -/
def isUnauthorizedError (r : Except PyError JwtPayload) : Bool :=
  match r with
  | Except.error (PyError.http 401 _) => true
  | _ => false

theorem optMem_iff (c : Option String) (vals : List String) :
    optMem c vals = true ↔ c ∈ vals.map some := by
  cases c with
  | none => simp [optMem]
  | some s => simp [optMem]

/-- Claim C1 (code_bug): after `connect(c1, s)` then `connect(c2, s)`,
`lookup s = c2` (register does replace); but a subsequent
`disconnect(c1, s)` with the stale channel `c1` is NOT a no-op —
`WsConnectionManager.disconnect` ignores its `websocket` argument and
deletes the entry whenever the subject is present, so `lookup s = none`
instead of the claimed `c2`. -/
theorem C1_stale_unregister_evicts_newer :
    regGet (WsConnectionManager.connect
      (WsConnectionManager.connect [] 1 "s") 2 "s") "s" = some 2 ∧
    regGet (WsConnectionManager.disconnect
      (WsConnectionManager.connect
        (WsConnectionManager.connect [] 1 "s") 2 "s") 1 "s") "s" = none := by
  decide

/-- Claim C2 (code_bug): the receive loop catches only
`WebSocketDisconnect`; a fatal parse error (a frame that is not valid
JSON / not a valid envelope) propagates out of `websocket_endpoint`
without running `manager.disconnect`, so the registry entry `("1", 7)`
outlives the session — cleanup does NOT run on every edge. -/
theorem C2_parse_error_leaks_registry_entry :
    websocket_endpoint 7 "1" 9 [] [] [Wire.junk] =
      (SessionState.mk [("1", 7)] [] [] [], Outcome.crashed PyError.jsonError) := by
  decide

/-- Claim C3 (code_bug): the `BaseMessage` validator rejects only the
both-set case; an envelope with NEITHER `text` nor `photo` passes
validation and reaches `create_message_model` — a persistence call is
made for a structurally invalid envelope, contrary to the claimed
reject-before-persistence for both violation shapes. -/
theorem C3_neither_set_reaches_persistence :
    parseFrame (Wire.createMsg none none 1 2) =
      Except.ok (Envelope.create none none 1 2) ∧
    (websocket_endpoint 7 "1" 9 [] [] [Wire.createMsg none none 1 2]).1.trace =
      [PersistOp.createOp (MessageRow.mk 0 none none 1 9)] := by
  exact ⟨rfl, by decide⟩

/-- Claim C4 (code_bug): a Delete envelope never reaches dispatch — the
unconditional `message.message.receiver_id = receiver` assignment raises
`ValueError` on a pydantic `DeleteMessage` (no such field), ending the
session with no error report, no cleanup, and no `NotFound`; the
connection does not remain open for a subsequent frame. -/
theorem C4_delete_frame_kills_session :
    websocket_endpoint 7 "1" 9 [] [] [Wire.deleteMsg 99] =
      (SessionState.mk [("1", 7)] [] [] [],
       Outcome.crashed
         (PyError.valueError "DeleteMessage object has no field receiver_id")) := by
  decide

/-- Claim C5 (confirmed): a token issued by `create_token` with explicit
subject id, role, email and superuser flag and a truthy ttl `T`, decoded by
`Token._decode` at any time `t` strictly before `issue_time + T`, succeeds
and returns exactly the embedded claims: the id, the role's enum value,
the superuser flag and the email, unchanged. -/
theorem C5_issue_decode_roundtrip (uid : String) (r : UserRole) (email : String)
    (su : Bool) (T now t : Int) (tok : SignedToken) (spec : RoleSpec)
    (h1 : uid ≠ "") (h2 : T ≠ 0)
    (h3 : create_token none (some T) (some uid) (some r) (some email) su now =
      Except.ok tok)
    (h4 : t < now + T) :
    Token._decode (Token.mk tok spec SECRET_KEY ALGORITHMS) t =
      Except.ok (JwtPayload.mk (now + T) (some uid) (some r.value) (some su)
        (some email)) := by
  have hd : truthyDelta (some T) = true := by simp [truthyDelta, h2]
  have hs : truthyStr (some uid) = true := by simp [truthyStr, h1]
  simp only [create_token, hd, hs, if_true, Option.isSome_some, Bool.and_true,
    Option.getD, Except.ok.injEq] at h3
  have hexp : ¬ (now + T ≤ t) := by omega
  subst h3
  simp [Token._decode, jwtDecode, jwtEncode, hexp]

/-- Witness for C5: issue at time 0 with ttl 1800 for subject "1", role
`user`, email "e"; decode at time 5 returns the embedded claims. -/
theorem C5_issue_decode_roundtrip_witness :
    Token._decode
      (Token.mk
        (jwtEncode
          (JwtPayload.mk 1800 (some "1") (some "user") (some false) (some "e"))
          SECRET_KEY ALGORITHMS)
        (RoleSpec.many []) SECRET_KEY ALGORITHMS) 5 =
      Except.ok
        (JwtPayload.mk 1800 (some "1") (some "user") (some false) (some "e")) :=
  C5_issue_decode_roundtrip "1" UserRole.user "e" false 1800 0 5
    (jwtEncode
      (JwtPayload.mk 1800 (some "1") (some "user") (some false) (some "e"))
      SECRET_KEY ALGORITHMS)
    (RoleSpec.many []) (by decide) (by decide) rfl (by decide)

/-- Claim C6 (confirmed): for a credential that decodes to claims `p` and an
allowed role list `rs`, `check_permission` with `exclude = false` passes
exactly when the decoded role claim is a member of the allowed roles'
values, and with `exclude = true` passes exactly when it is not — the
exact logical negation on the same inputs. -/
theorem C6_check_permission_exclude_negation (t : Token) (rs : List UserRole)
    (now : Int) (p : JwtPayload) (hr : t.role = RoleSpec.many rs)
    (h : t._decode now = Except.ok p) :
    (t.check_permission false now = Except.ok () ↔
      p.role ∈ rs.map (fun r => some r.value)) ∧
    (t.check_permission true now = Except.ok () ↔
      p.role ∉ rs.map (fun r => some r.value)) := by
  have hmm : (p.role ∈ (rs.map UserRole.value).map some) ↔
      p.role ∈ rs.map (fun r => some r.value) := by
    simp [List.map_map, Function.comp]
  constructor
  · rw [← hmm, ← optMem_iff]
    cases hb : optMem p.role (rs.map UserRole.value) with
    | true => simp [Token.check_permission, Token._has_access, h, hr, hb,
        Bind.bind, Except.bind, pure, Except.pure]
    | false => simp [Token.check_permission, Token._has_access, h, hr, hb,
        Bind.bind, Except.bind, pure, Except.pure]
  · rw [← hmm, ← optMem_iff]
    cases hb : optMem p.role (rs.map UserRole.value) with
    | true => simp [Token.check_permission, Token._not_access, h, hr, hb,
        Bind.bind, Except.bind, pure, Except.pure]
    | false => simp [Token.check_permission, Token._not_access, h, hr, hb,
        Bind.bind, Except.bind, pure, Except.pure]

/-- Witness for C6: a token whose role claim is "user" checked against the
allowed list `[user, administrator]`. -/
theorem C6_check_permission_exclude_negation_witness :
    (Token.check_permission
        (Token.mk (jwtEncode (JwtPayload.mk 100 none (some "user") none none)
          SECRET_KEY ALGORITHMS)
          (RoleSpec.many [UserRole.user, UserRole.administrator])
          SECRET_KEY ALGORITHMS) false 0 = Except.ok () ↔
      some "user" ∈
        [UserRole.user, UserRole.administrator].map (fun r => some r.value)) ∧
    (Token.check_permission
        (Token.mk (jwtEncode (JwtPayload.mk 100 none (some "user") none none)
          SECRET_KEY ALGORITHMS)
          (RoleSpec.many [UserRole.user, UserRole.administrator])
          SECRET_KEY ALGORITHMS) true 0 = Except.ok () ↔
      some "user" ∉
        [UserRole.user, UserRole.administrator].map (fun r => some r.value)) :=
  C6_check_permission_exclude_negation
    (Token.mk (jwtEncode (JwtPayload.mk 100 none (some "user") none none)
      SECRET_KEY ALGORITHMS)
      (RoleSpec.many [UserRole.user, UserRole.administrator])
      SECRET_KEY ALGORITHMS)
    [UserRole.user, UserRole.administrator] 0
    (JwtPayload.mk 100 none (some "user") none none) rfl rfl

/-- Counterexample for C7: a refresh token carrying `id = "1"`,
`role = "admin"` (the very value `create_token` embeds for administrators)
and `is_superuser` present satisfies every stated requirement, yet the
refresh raises `KeyError("admin")` — `UserRole[role]` looks members up by
NAME, not value — so no fresh pair is reissued, contradicting the claim. -/
theorem C7_refresh_admin_role_keyerror :
    RefreshToken.create_token
      (Token.mk
        (jwtEncode (JwtPayload.mk 1000 (some "1") (some "admin") (some true) none)
          SECRET_KEY ALGORITHMS)
        (RoleSpec.one UserRole.noone) SECRET_KEY ALGORITHMS) 0 =
      Except.error (PyError.keyError "admin") := by
  rfl

/-- Claim C7 (corrected): the refresh decodes the submitted token and
requires truthy `id` and `role` claims and the presence of `is_superuser`;
when any is missing it fails with `ValueError("Unexpected decryption
result")` and no tokens are issued; when all are present it reissues a
fresh access+refresh pair PROVIDED the role claim is a valid role NAME
(`user`/`administrator`/`noone`) — any other role string (such as the
issued value "admin") raises `KeyError` instead. -/
theorem C7_refresh_required_fields (t : Token) (now : Int) (p : JwtPayload)
    (h : t._decode now = Except.ok p) :
    ((truthyStr p.id && truthyStr p.role && p.is_superuser.isSome) = false →
      RefreshToken.create_token t now =
        Except.error (PyError.valueError "Unexpected decryption result")) ∧
    (∀ r : UserRole,
      (truthyStr p.id && truthyStr p.role && p.is_superuser.isSome) = true →
      UserRole.fromName (p.role.getD "") = some r →
      RefreshToken.create_token t now =
        Except.ok
          (jwtEncode
            (JwtPayload.mk (now + access_token_expires) p.id (some r.value)
              (some (p.is_superuser.getD false)) none) SECRET_KEY ALGORITHMS,
           jwtEncode
            (JwtPayload.mk (now + refresh_token_expires) p.id (some r.value)
              (some (p.is_superuser.getD false)) none) SECRET_KEY ALGORITHMS)) := by
  constructor
  · intro hc
    simp [RefreshToken.create_token, h, hc, Bind.bind, Except.bind]
  · intro r hc hr
    rcases Bool.and_eq_true_iff.mp hc with ⟨h1, hsu⟩
    rcases Bool.and_eq_true_iff.mp h1 with ⟨hid, hro⟩
    simp [RefreshToken.create_token, h, hc, hr, moduleCreateToken, create_token,
      truthyDelta, hid, access_token_expires, refresh_token_expires,
      Bind.bind, Except.bind, pure, Except.pure]
    exact ⟨hro, Option.isSome_iff_ne_none.mp hsu⟩

/-- Witness for C7: a refresh token missing the `role` claim fails with the
decryption-result error and no new tokens are issued (end-to-end
scenario 3). -/
theorem C7_refresh_required_fields_witness :
    RefreshToken.create_token
      (Token.mk
        (jwtEncode (JwtPayload.mk 1000 (some "1") none (some true) none)
          SECRET_KEY ALGORITHMS)
        (RoleSpec.one UserRole.noone) SECRET_KEY ALGORITHMS) 0 =
      Except.error (PyError.valueError "Unexpected decryption result") :=
  (C7_refresh_required_fields
    (Token.mk
      (jwtEncode (JwtPayload.mk 1000 (some "1") none (some true) none)
        SECRET_KEY ALGORITHMS)
      (RoleSpec.one UserRole.noone) SECRET_KEY ALGORITHMS) 0
    (JwtPayload.mk 1000 (some "1") none (some true) none) rfl).1 (by decide)

/-- Claim C8 (confirmed): for every token whose `exp` claim is less than or
equal to the current time, `Token._decode` fails with
`HTTPException(401, ...)` — decoding never succeeds on an expired token
(whether or not the signature would verify). -/
theorem C8_expired_token_decode_fails (t : Token) (now : Int)
    (h : t.token.payload.exp ≤ now) :
    isUnauthorizedError (t._decode now) = true := by
  by_cases hk : t.token.key = t.key ∧ t.token.alg = t.alg
  · simp [Token._decode, jwtDecode, hk, h, isUnauthorizedError]
  · simp [Token._decode, jwtDecode, hk, isUnauthorizedError]

/-- Witness for C8: a token that expired at time 0, decoded at time 5,
fails with the unauthorized error. -/
theorem C8_expired_token_decode_fails_witness :
    isUnauthorizedError
      (Token._decode
        (Token.mk (jwtEncode (JwtPayload.mk 0 none none none none)
          SECRET_KEY ALGORITHMS)
          (RoleSpec.one UserRole.noone) SECRET_KEY ALGORITHMS) 5) = true :=
  C8_expired_token_decode_fails
    (Token.mk (jwtEncode (JwtPayload.mk 0 none none none none)
      SECRET_KEY ALGORITHMS)
      (RoleSpec.one UserRole.noone) SECRET_KEY ALGORITHMS) 5 (by decide)

/-- Claim C9 (confirmed): for every Create envelope the session loop
processes, the `receiver_id` supplied on the wire (`rid`) is overwritten
with the connection's path parameter (`recv`) before dispatch, so the row
handed to persistence carries `receiver = recv`; `rid` does not occur in
the result at all. -/
theorem C9_receiver_id_overwritten_with_path (t p : Option String)
    (sid rid recv : Int) (ws : Nat) (uid : String) (st : SessionState)
    (h : (t.isSome && p.isSome) = false) :
    runLoop ws uid recv st [Wire.createMsg t p sid rid] =
      (SessionState.mk st.registry
        (st.storage ++
          [MessageRow.mk (Int.ofNat st.storage.length) (pyOrNone t) (pyOrNone p)
            sid recv])
        (st.trace ++
          [PersistOp.createOp
            (MessageRow.mk (Int.ofNat st.storage.length) (pyOrNone t)
              (pyOrNone p) sid recv)])
        (st.sent ++ [pyOrStr t p]),
       Outcome.exhausted) := by
  simp [runLoop, parseFrame, h, setReceiver, create_message_model]

/-- Witness for C9: a text frame addressed on the wire to receiver 42,
processed on a connection whose path parameter is 9, is persisted with
`receiver = 9`. -/
theorem C9_receiver_id_overwritten_with_path_witness :
    runLoop 7 "u" 9 (SessionState.mk [] [] [] [])
      [Wire.createMsg (some "hi") none 1 42] =
      (SessionState.mk []
        [MessageRow.mk 0 (some "hi") none 1 9]
        [PersistOp.createOp (MessageRow.mk 0 (some "hi") none 1 9)]
        [some "hi"],
       Outcome.exhausted) :=
  C9_receiver_id_overwritten_with_path (some "hi") none 1 42 9 7 "u"
    (SessionState.mk [] [] [] []) (by decide)

/-- Claim C10 (confirmed): after a successful decode, the accessors
`user_id`, `user_role` and `user_email` treat an empty-string claim the
same as an absent claim, failing with the bad-request "Token must have
key ..." error; in particular a role claim equal to `UserRole.noone.value`
(the empty string) is reported as a missing role. -/
theorem C10_empty_claims_reported_missing (t : Token) (now : Int)
    (p : JwtPayload) (h : t._decode now = Except.ok p) :
    ((p.id = none ∨ p.id = some "") →
       t.user_id now = Except.error (PyError.http 400 "Token must have key id")) ∧
    ((p.role = none ∨ p.role = some UserRole.noone.value) →
       t.user_role now =
         Except.error (PyError.http 400 "Token must have key role")) ∧
    ((p.email = none ∨ p.email = some "") →
       t.user_email now =
         Except.error (PyError.http 400 "Token must have key email")) := by
  refine ⟨fun hid => ?_, fun hrole => ?_, fun hemail => ?_⟩
  · rcases hid with hid | hid <;>
      simp [Token.user_id, h, hid, Bind.bind, Except.bind]
  · rcases hrole with hrole | hrole <;>
      simp [Token.user_role, h, hrole, UserRole.value, Bind.bind, Except.bind]
  · rcases hemail with hemail | hemail <;>
      simp [Token.user_email, h, hemail, Bind.bind, Except.bind]

/-- Witness for C10: a decodable token whose `id` and `role` claims are the
empty string and whose `email` claim is absent; all three accessors fail
with the corresponding "Token must have key" error. -/
theorem C10_empty_claims_reported_missing_witness :
    Token.user_id
      (Token.mk (jwtEncode (JwtPayload.mk 100 (some "") (some "") none none)
        SECRET_KEY ALGORITHMS)
        (RoleSpec.one UserRole.noone) SECRET_KEY ALGORITHMS) 0 =
      Except.error (PyError.http 400 "Token must have key id") ∧
    Token.user_role
      (Token.mk (jwtEncode (JwtPayload.mk 100 (some "") (some "") none none)
        SECRET_KEY ALGORITHMS)
        (RoleSpec.one UserRole.noone) SECRET_KEY ALGORITHMS) 0 =
      Except.error (PyError.http 400 "Token must have key role") ∧
    Token.user_email
      (Token.mk (jwtEncode (JwtPayload.mk 100 (some "") (some "") none none)
        SECRET_KEY ALGORITHMS)
        (RoleSpec.one UserRole.noone) SECRET_KEY ALGORITHMS) 0 =
      Except.error (PyError.http 400 "Token must have key email") :=
  ⟨(C10_empty_claims_reported_missing
      (Token.mk (jwtEncode (JwtPayload.mk 100 (some "") (some "") none none)
        SECRET_KEY ALGORITHMS)
        (RoleSpec.one UserRole.noone) SECRET_KEY ALGORITHMS) 0
      (JwtPayload.mk 100 (some "") (some "") none none) rfl).1 (Or.inr rfl),
   (C10_empty_claims_reported_missing
      (Token.mk (jwtEncode (JwtPayload.mk 100 (some "") (some "") none none)
        SECRET_KEY ALGORITHMS)
        (RoleSpec.one UserRole.noone) SECRET_KEY ALGORITHMS) 0
      (JwtPayload.mk 100 (some "") (some "") none none) rfl).2.1 (Or.inr rfl),
   (C10_empty_claims_reported_missing
      (Token.mk (jwtEncode (JwtPayload.mk 100 (some "") (some "") none none)
        SECRET_KEY ALGORITHMS)
        (RoleSpec.one UserRole.noone) SECRET_KEY ALGORITHMS) 0
      (JwtPayload.mk 100 (some "") (some "") none none) rfl).2.2 (Or.inl rfl)⟩
